import Mathlib

/-!
Shallow embedding of the School-Management-System repository
(`managementSchema.py`, `main.py`, `managementCrud.py`).

The repository stores its state in a single SQLite database whose schema,
triggers and foreign keys are declared in `managementSchema.py`.  We embed a
database state as explicit lists of rows, one list per table, and each SQL
statement executed by the Python code as a pure function on that state.

SQLite semantics embedded here, faithful to the DDL in `managementSchema.py`:
  * BEFORE INSERT triggers run before constraint checking; a trigger whose
    WHEN clause compares a NULL subquery result (referenced user does not
    exist) does not fire, because `NULL <> 'x'` is not true in SQL.
  * UNIQUE / PRIMARY KEY violations and foreign-key existence violations
    abort the single statement, which then changes nothing (statement-level
    atomicity is native to SQLite).
  * `ON DELETE CASCADE` removes dependent rows in the same statement;
    `ON DELETE RESTRICT` (Announcements.author_id) aborts the delete.
  * `cursor.rowcount` after a DELETE counts only the rows deleted directly
    by the statement, not rows removed by cascading foreign-key actions.

The HTTP layer (`main.py`) and the CRUD module (`managementCrud.py`) both
wrap statements in a connection context manager that commits on a clean
exit and closes without committing (rolling back) when an exception
escapes; operations are embedded as functions returning the durable state
together with the result or the typed failure.  Submission grades are
declared REAL in the schema; no claim depends on float arithmetic, so a
grade is embedded as an optional integer.
-/

/-- A row of the Users table. -/
structure UserRow where
  uid : Nat
  email : String
  fullName : String
  role : String
deriving Repr, DecidableEq

/-- A row of the Classes table. -/
structure ClassRow where
  cid : Nat
  code : String
  title : String
deriving Repr, DecidableEq

/-- A row of the TeacherClass junction table. -/
structure TCRow where
  teacherId : Nat
  classId : Nat
deriving Repr, DecidableEq

/-- A row of the Enrollments table. -/
structure EnrRow where
  userId : Nat
  classId : Nat
deriving Repr, DecidableEq

/-- A row of the Assignments table. -/
structure AsgRow where
  aid : Nat
  classId : Nat
  title : String
  dueAt : String
deriving Repr, DecidableEq

/-- A row of the Submissions table. -/
structure SubRow where
  sid : Nat
  assignmentId : Nat
  studentId : Nat
  attemptNumber : Nat
  grade : Option Int
  feedback : Option String
deriving Repr, DecidableEq

/-- A row of the SubmissionAttachments table. -/
structure AttRow where
  atid : Nat
  submissionId : Nat
  kind : String
  value : String
deriving Repr, DecidableEq

/-- A row of the Announcements table. -/
structure AnnRow where
  anid : Nat
  classId : Nat
  authorId : Nat
  title : String
  body : String
deriving Repr, DecidableEq

/-- The whole database state: one list of rows per table of the schema. -/
structure Db where
  users : List UserRow
  classes : List ClassRow
  teacherClass : List TCRow
  enrollments : List EnrRow
  assignments : List AsgRow
  submissions : List SubRow
  attachments : List AttRow
  announcements : List AnnRow
deriving Repr, DecidableEq

/-- Typed failure of a single SQL statement (sqlite3.IntegrityError cases). -/
inductive DbErr where
  | fkViolation
  | uniqueViolation
  | checkViolation
  | triggerAbort (msg : String)
deriving Repr, DecidableEq

/-- Failure surfaced by a `main.py` endpoint: a caught IntegrityError
becomes an HTTP 409 conflict, a missing row becomes HTTP 404, an empty
patch becomes HTTP 400, and an IntegrityError the endpoint does not catch
propagates unhandled (HTTP 500). -/
inductive ApiErr where
  | conflict (e : DbErr)
  | notFound (what : String)
  | badRequest (what : String)
  | unhandled (e : DbErr)
deriving Repr, DecidableEq

/-- Decidable equality for the Except-valued results of the embedded
operations, so that witnesses evaluate on concrete states. -/
instance instDecEqExcept {e a : Type} [DecidableEq e] [DecidableEq a] :
    DecidableEq (Except e a) := fun x y =>
  match x, y with
  | .error v, .error w =>
    if h : v = w then .isTrue (congrArg Except.error h)
    else .isFalse (fun hc => h (Except.error.inj hc))
  | .ok v, .ok w =>
    if h : v = w then .isTrue (congrArg Except.ok h)
    else .isFalse (fun hc => h (Except.ok.inj hc))
  | .error _, .ok _ => .isFalse (fun hc => Except.noConfusion hc)
  | .ok _, .error _ => .isFalse (fun hc => Except.noConfusion hc)

/-- `SELECT * FROM Users WHERE id=?` (first match). -/
def findUser (db : Db) (uid : Nat) : Option UserRow :=
  db.users.find? (fun u => u.uid == uid)

/-- `SELECT * FROM Classes WHERE id=?` (first match). -/
def findClass (db : Db) (cid : Nat) : Option ClassRow :=
  db.classes.find? (fun c => c.cid == cid)

/-- The Submissions rows for a given (assignment_id, student_id) pair. -/
def subsFor (db : Db) (aid stid : Nat) : List SubRow :=
  db.submissions.filter (fun s => s.assignmentId == aid && s.studentId == stid)

/-- `SELECT COALESCE(MAX(attempt_number), 0) FROM Submissions WHERE
assignment_id=? AND student_id=?` — the read phase of the attempt
sequencer in `main.py` `create_submission`. -/
def maxAttempt (db : Db) (aid stid : Nat) : Nat :=
  ((subsFor db aid stid).map (fun s => s.attemptNumber)).foldl max 0

/-- The rowid SQLite assigns to a newly inserted Submissions row. -/
def nextSubId (db : Db) : Nat :=
  (db.submissions.foldl (fun m s => max m s.sid) 0) + 1

/-- Total number of rows stored across all tables. -/
def totalRows (db : Db) : Nat :=
  db.users.length + db.classes.length + db.teacherClass.length +
  db.enrollments.length + db.assignments.length + db.submissions.length +
  db.attachments.length + db.announcements.length

/-- WHEN clause of trigger `trg_teacherclass_teacher_role`:
`(SELECT role FROM Users WHERE id = NEW.teacher_id) <> 'teacher'`.
When no such user exists the subquery is NULL and the comparison is not
true, so the trigger does not fire. -/
def trgTeacherRoleFires (db : Db) (tid : Nat) : Bool :=
  match findUser db tid with
  | none => false
  | some u => u.role != "teacher"

/-- WHEN clause of trigger `trg_enrollments_student_role` (same NULL
semantics as the teacher-role trigger). -/
def trgEnrollRoleFires (db : Db) (uid : Nat) : Bool :=
  match findUser db uid with
  | none => false
  | some u => u.role != "student"

/-- WHEN clause of trigger `trg_submissions_student_role`. -/
def trgSubRoleFires (db : Db) (stid : Nat) : Bool :=
  match findUser db stid with
  | none => false
  | some u => u.role != "student"

/-- WHEN clause of trigger `trg_submissions_student_enrolled`:
`NOT EXISTS (SELECT 1 FROM Assignments a JOIN Enrollments e ON
e.class_id = a.class_id AND e.user_id = NEW.student_id WHERE
a.id = NEW.assignment_id)`. -/
def trgSubEnrolledFires (db : Db) (aid stid : Nat) : Bool :=
  !(db.assignments.any (fun a =>
      a.aid == aid &&
      db.enrollments.any (fun e => e.classId == a.classId && e.userId == stid)))

/-- Abort message of trigger `trg_teacherclass_teacher_role`. -/
def tcRoleMsg : String :=
  "TeacherClass.teacher_id must reference a user with role=teacher"

/-- Abort message of trigger `trg_enrollments_student_role`. -/
def enrollRoleMsg : String :=
  "Enrollments.user_id must reference a user with role=student"

/-- Abort message of trigger `trg_submissions_student_role`. -/
def subRoleMsg : String :=
  "Submissions.student_id must reference a user with role=student"

/-- Abort message of trigger `trg_submissions_student_enrolled`. -/
def subEnrollMsg : String :=
  "Student must be enrolled in the class for this assignment"

/-- `INSERT INTO TeacherClass(teacher_id, class_id) VALUES(?,?)`:
BEFORE trigger, then PRIMARY KEY uniqueness, then foreign-key existence. -/
def insertTeacherClassRow (db : Db) (tid cid : Nat) : Except DbErr Db :=
  if trgTeacherRoleFires db tid then .error (.triggerAbort tcRoleMsg)
  else if db.teacherClass.any (fun r => r.teacherId == tid && r.classId == cid) then
    .error .uniqueViolation
  else if (findUser db tid).isNone then .error .fkViolation
  else if (findClass db cid).isNone then .error .fkViolation
  else .ok { db with teacherClass := db.teacherClass ++ [⟨tid, cid⟩] }

/-- `INSERT INTO Enrollments(user_id, class_id) VALUES(?,?)`. -/
def insertEnrollmentRow (db : Db) (uid cid : Nat) : Except DbErr Db :=
  if trgEnrollRoleFires db uid then .error (.triggerAbort enrollRoleMsg)
  else if db.enrollments.any (fun e => e.userId == uid && e.classId == cid) then
    .error .uniqueViolation
  else if (findUser db uid).isNone then .error .fkViolation
  else if (findClass db cid).isNone then .error .fkViolation
  else .ok { db with enrollments := db.enrollments ++ [⟨uid, cid⟩] }

/-- `INSERT INTO Submissions(assignment_id, student_id, attempt_number,
grade, feedback) VALUES(?,?,?,?,?)`: both BEFORE triggers (in creation
order), then the UNIQUE (assignment_id, student_id, attempt_number)
constraint, then foreign-key existence.  On success returns the new state
and the inserted row (lastrowid plus the `SELECT` read-back). -/
def insertSubmissionRow (db : Db) (aid stid attempt : Nat)
    (grade : Option Int) (feedback : Option String) :
    Except DbErr (Db × SubRow) :=
  if trgSubRoleFires db stid then .error (.triggerAbort subRoleMsg)
  else if trgSubEnrolledFires db aid stid then .error (.triggerAbort subEnrollMsg)
  else if db.submissions.any (fun s =>
      s.assignmentId == aid && s.studentId == stid && s.attemptNumber == attempt) then
    .error .uniqueViolation
  else if !(db.assignments.any (fun a => a.aid == aid)) then .error .fkViolation
  else if (findUser db stid).isNone then .error .fkViolation
  else
    let row : SubRow := ⟨nextSubId db, aid, stid, attempt, grade, feedback⟩
    .ok ({ db with submissions := db.submissions ++ [row] }, row)

/-- `UPDATE Users SET ... WHERE id=?` with the optional SET fields built
exactly as in `update_user`: CHECK on role, UNIQUE on email.  No trigger
guards UPDATE statements on Users. -/
def updateUsersRow (db : Db) (uid : Nat)
    (email fullName role : Option String) : Except DbErr Db :=
  let users2 := db.users.map (fun u =>
    if u.uid == uid then
      { u with email := email.getD u.email,
               fullName := fullName.getD u.fullName,
               role := role.getD u.role }
    else u)
  if (users2.filter (fun u => u.uid == uid)).any (fun u =>
      u.role != "teacher" && u.role != "student" && u.role != "admin") then
    .error .checkViolation
  else if (users2.filter (fun u => u.uid == uid)).any (fun u =>
      (users2.filter (fun v => v.uid != uid)).any (fun v => v.email == u.email)) then
    .error .uniqueViolation
  else .ok { db with users := users2 }

/-- `DELETE FROM Users WHERE id=?`: Announcements.author_id is ON DELETE
RESTRICT, so the statement aborts while any announcement references the
user; otherwise TeacherClass, Enrollments and Submissions rows cascade,
and the attachments of the cascaded submissions cascade in turn.  The
returned count is `cursor.rowcount`: only the Users rows deleted directly. -/
def deleteUserRows (db : Db) (uid : Nat) : Except DbErr (Db × Nat) :=
  let n := (db.users.filter (fun v => v.uid == uid)).length
  if n == 0 then .ok (db, 0)
  else if db.announcements.any (fun an => an.authorId == uid) then .error .fkViolation
  else
    let removedSubs := db.submissions.filter (fun s => s.studentId == uid)
    .ok ({ db with
      users := db.users.filter (fun v => !(v.uid == uid)),
      teacherClass := db.teacherClass.filter (fun r => !(r.teacherId == uid)),
      enrollments := db.enrollments.filter (fun e => !(e.userId == uid)),
      submissions := db.submissions.filter (fun s => !(s.studentId == uid)),
      attachments := db.attachments.filter (fun t =>
        !(removedSubs.any (fun s => s.sid == t.submissionId))) }, n)

/-- `DELETE FROM Classes WHERE id=?`: every foreign key into Classes is ON
DELETE CASCADE, so the class's TeacherClass, Enrollments, Assignments and
Announcements rows are removed, the submissions of the removed assignments
are removed, and the attachments of those submissions are removed.  The
count is again only the directly deleted Classes rows. -/
def deleteClassRows (db : Db) (cid : Nat) : Db × Nat :=
  let n := (db.classes.filter (fun c => c.cid == cid)).length
  if n == 0 then (db, 0)
  else
    let removedAsgs := db.assignments.filter (fun a => a.classId == cid)
    let removedSubs := db.submissions.filter (fun s =>
      removedAsgs.any (fun a => a.aid == s.assignmentId))
    ({ db with
      classes := db.classes.filter (fun c => !(c.cid == cid)),
      teacherClass := db.teacherClass.filter (fun r => !(r.classId == cid)),
      enrollments := db.enrollments.filter (fun e => !(e.classId == cid)),
      assignments := db.assignments.filter (fun a => !(a.classId == cid)),
      submissions := db.submissions.filter (fun s =>
        !(removedAsgs.any (fun a => a.aid == s.assignmentId))),
      attachments := db.attachments.filter (fun t =>
        !(removedSubs.any (fun s => s.sid == t.submissionId))),
      announcements := db.announcements.filter (fun an => !(an.classId == cid)) }, n)

/-- `DELETE FROM Assignments WHERE id=?` with its cascades. -/
def deleteAssignmentRows (db : Db) (aid : Nat) : Db × Nat :=
  let n := (db.assignments.filter (fun a => a.aid == aid)).length
  if n == 0 then (db, 0)
  else
    let removedSubs := db.submissions.filter (fun s => s.assignmentId == aid)
    ({ db with
      assignments := db.assignments.filter (fun a => !(a.aid == aid)),
      submissions := db.submissions.filter (fun s => !(s.assignmentId == aid)),
      attachments := db.attachments.filter (fun t =>
        !(removedSubs.any (fun s => s.sid == t.submissionId))) }, n)

/-- `DELETE FROM Submissions WHERE id=?` with its attachment cascade. -/
def deleteSubmissionRows (db : Db) (sid : Nat) : Db × Nat :=
  let n := (db.submissions.filter (fun s => s.sid == sid)).length
  if n == 0 then (db, 0)
  else
    ({ db with
      submissions := db.submissions.filter (fun s => !(s.sid == sid)),
      attachments := db.attachments.filter (fun t => !(t.submissionId == sid)) }, n)

/-- The insert phase of `main.py` `create_submission`, run after the
attempt number has been computed from an earlier read (possibly a stale
one under concurrency).  A sqlite3.IntegrityError is caught and surfaced
immediately as HTTP 409; the code contains no retry loop and no
Contention error. -/
def mainCreateSubmissionInsert (db : Db) (aid stid attempt : Nat)
    (grade : Option Int) (feedback : Option String) :
    Db × Except ApiErr SubRow :=
  match insertSubmissionRow db aid stid attempt grade feedback with
  | .error e => (db, .error (.conflict e))
  | .ok (db2, row) => (db2, .ok row)

/-- `main.py` endpoint `create_submission` (POST /submissions): reads
`COALESCE(MAX(attempt_number), 0)` for the pair, then inserts with that
maximum plus one. -/
def mainCreateSubmission (db : Db) (aid stid : Nat)
    (grade : Option Int) (feedback : Option String) :
    Db × Except ApiErr SubRow :=
  mainCreateSubmissionInsert db aid stid (maxAttempt db aid stid + 1) grade feedback

/-- `main.py` endpoint `update_user` (PATCH /users/id).  An empty patch is
HTTP 400; an IntegrityError is HTTP 409; a missing user after the UPDATE is
HTTP 404.  An HTTPException escapes `get_conn` before `commit`, so the
durable state on every failure is the original one. -/
def mainUpdateUser (db : Db) (uid : Nat)
    (email fullName role : Option String) : Db × Except ApiErr UserRow :=
  if email.isNone && fullName.isNone && role.isNone then
    (db, .error (.badRequest "No fields to update"))
  else
    match updateUsersRow db uid email fullName role with
    | .error e => (db, .error (.conflict e))
    | .ok db2 =>
      match findUser db2 uid with
      | none => (db, .error (.notFound "User not found"))
      | some u => (db2, .ok u)

/-- `main.py` endpoint `delete_user` (DELETE /users/id).  The endpoint does
not catch IntegrityError, so a RESTRICT failure propagates unhandled (and
uncommitted); `rowcount == 0` is HTTP 404. -/
def mainDeleteUser (db : Db) (uid : Nat) : Db × Except ApiErr Unit :=
  match deleteUserRows db uid with
  | .error e => (db, .error (.unhandled e))
  | .ok (db2, n) =>
    if n == 0 then (db, .error (.notFound "User not found")) else (db2, .ok ())

/-- `main.py` endpoint `delete_class` (DELETE /classes/id). -/
def mainDeleteClass (db : Db) (cid : Nat) : Db × Except ApiErr Unit :=
  let p := deleteClassRows db cid
  if p.2 == 0 then (db, .error (.notFound "Class not found")) else (p.1, .ok ())

/-- `main.py` endpoint `delete_assignment` (DELETE /assignments/id). -/
def mainDeleteAssignment (db : Db) (aid : Nat) : Db × Except ApiErr Unit :=
  let p := deleteAssignmentRows db aid
  if p.2 == 0 then (db, .error (.notFound "Assignment not found")) else (p.1, .ok ())

/-- `main.py` endpoint `delete_submission` (DELETE /submissions/id). -/
def mainDeleteSubmission (db : Db) (sid : Nat) : Db × Except ApiErr Unit :=
  let p := deleteSubmissionRows db sid
  if p.2 == 0 then (db, .error (.notFound "Submission not found")) else (p.1, .ok ())

/-- `main.py` endpoint `enroll` (POST /enrollments): IntegrityError becomes
HTTP 409, success reads the row back. -/
def mainEnroll (db : Db) (uid cid : Nat) : Db × Except ApiErr EnrRow :=
  match insertEnrollmentRow db uid cid with
  | .error e => (db, .error (.conflict e))
  | .ok db2 => (db2, .ok ⟨uid, cid⟩)

/-- `main.py` endpoint `teacherassigne` (POST /teacherassigned). -/
def mainTeacherAssign (db : Db) (tid cid : Nat) : Db × Except ApiErr TCRow :=
  match insertTeacherClassRow db tid cid with
  | .error e => (db, .error (.conflict e))
  | .ok db2 => (db2, .ok ⟨tid, cid⟩)

/-- `managementCrud.create_submission`: inserts with the caller-supplied
attempt_number (default 1); no read of the current maximum, no sequencing,
and any IntegrityError propagates with the connection closed uncommitted. -/
def crudCreateSubmission (db : Db) (aid stid attempt : Nat)
    (grade : Option Int) (feedback : Option String) : Db × Except DbErr Nat :=
  match insertSubmissionRow db aid stid attempt grade feedback with
  | .error e => (db, .error e)
  | .ok (db2, row) => (db2, .ok row.sid)

/-- `managementCrud.enroll_student`. -/
def crudEnrollStudent (db : Db) (uid cid : Nat) : Db × Except DbErr Unit :=
  match insertEnrollmentRow db uid cid with
  | .error e => (db, .error e)
  | .ok db2 => (db2, .ok ())

/-- `managementCrud.delete_user`: returns `cursor.rowcount` (0 when the id
does not exist — no NotFound failure at this layer). -/
def crudDeleteUser (db : Db) (uid : Nat) : Db × Except DbErr Nat :=
  match deleteUserRows db uid with
  | .error e => (db, .error e)
  | .ok (db2, n) => (db2, .ok n)

/-- `managementCrud.delete_class`. -/
def crudDeleteClass (db : Db) (cid : Nat) : Db × Except DbErr Nat :=
  let p := deleteClassRows db cid
  (p.1, .ok p.2)

/-- `managementCrud.delete_assignment`. -/
def crudDeleteAssignment (db : Db) (aid : Nat) : Db × Except DbErr Nat :=
  let p := deleteAssignmentRows db aid
  (p.1, .ok p.2)

/-- `managementCrud.delete_submission`. -/
def crudDeleteSubmission (db : Db) (sid : Nat) : Db × Except DbErr Nat :=
  let p := deleteSubmissionRows db sid
  (p.1, .ok p.2)

/-- The list `[a, a+1, ..., a+n-1]`. -/
def seqFrom (a : Nat) : Nat → List Nat
  | 0 => []
  | n + 1 => a :: seqFrom (a + 1) n

/-- `n` sequential calls of the `main.py` submission endpoint for one
(assignment, student) pair, collecting the attempt numbers assigned; `none`
when any call fails. -/
def repeatCreate (aid stid : Nat) : Nat → Db → Option (Db × List Nat)
  | 0, db => some (db, [])
  | n + 1, db =>
    match mainCreateSubmission db aid stid none none with
    | (db2, Except.ok row) =>
      match repeatCreate aid stid n db2 with
      | some (db3, l) => some (db3, row.attemptNumber :: l)
      | none => none
    | (_, Except.error _) => none

/-- Concrete states used by the witnesses and counterexamples below. -/
def stu3 : UserRow := ⟨3, "s", "S", "student"⟩

/-- Class row used by the concrete states. -/
def cls1 : ClassRow := ⟨1, "c", "C"⟩

/-- Assignment 1 of class 1, used by the concrete states. -/
def asg1 : AsgRow := ⟨1, 1, "A", "d"⟩

/-- State for the sequencer claims: student 3 enrolled in class 1, which
owns assignment 1; no submissions yet. -/
def dbSeq : Db := ⟨[stu3], [cls1], [], [⟨3, 1⟩], [asg1], [], [], []⟩

/-- State for the race demonstration: same shape as `dbSeq`. -/
def dbRace : Db := ⟨[stu3], [cls1], [], [⟨3, 1⟩], [asg1], [], [], []⟩

/-- State for the role-invariant counterexample: user 1 is a teacher
assigned to class 1. -/
def dbRole : Db := ⟨[⟨1, "t", "T", "teacher"⟩], [cls1], [⟨1, 1⟩], [], [], [], [], []⟩

/-- State with a student who teaches nothing, for the amended role claim. -/
def dbRoleW : Db := ⟨[⟨2, "u", "U", "student"⟩], [cls1], [], [], [], [], [], []⟩

/-- State where student 3 is not enrolled anywhere but assignment 1 exists. -/
def dbNoEnroll : Db := ⟨[stu3], [cls1], [], [], [asg1], [], [], []⟩

/-- State for the announcement-restrict claim: teacher 1 assigned to class
1 with one authored announcement, plus an enrollment-free student. -/
def dbAnn : Db :=
  ⟨[⟨1, "t", "T", "teacher"⟩], [cls1], [⟨1, 1⟩], [], [], [], [],
   [⟨1, 1, 1, "hi", "b"⟩]⟩

/-- State like `dbAnn` but with the announcement removed. -/
def dbAnnGone : Db := ⟨[⟨1, "t", "T", "teacher"⟩], [cls1], [⟨1, 1⟩], [], [], [], [], []⟩

/-- State for the cascade claims: class 1 with an assignment, a submission
on it with an attachment, an enrollment and a teacher, and an unrelated
class 2 with its own assignment. -/
def dbCascade : Db :=
  ⟨[⟨1, "t", "T", "teacher"⟩, stu3], [cls1, ⟨2, "c2", "C2"⟩], [⟨1, 1⟩],
   [⟨3, 1⟩], [asg1, ⟨2, 2, "B", "d"⟩], [⟨1, 1, 3, 1, none, none⟩],
   [⟨1, 1, "url", "u"⟩], []⟩

/-- State for the delete-count counterexample: class 1 with one assignment. -/
def dbCount : Db := ⟨[], [cls1], [], [], [asg1], [], [], []⟩

/-- State for the crud-sequencing counterexample: submission attempt 1
exists for (assignment 1, student 3) but the enrollment has since been
removed. -/
def dbStale : Db := ⟨[stu3], [cls1], [], [], [asg1], [⟨1, 1, 3, 1, none, none⟩], [], []⟩

/-- State like `dbStale` but with the enrollment still present. -/
def dbDup : Db := ⟨[stu3], [cls1], [], [⟨3, 1⟩], [asg1], [⟨1, 1, 3, 1, none, none⟩], [], []⟩

/-- The empty database. -/
def dbEmpty : Db := ⟨[], [], [], [], [], [], [], []⟩

lemma le_foldl_max_init (l : List Nat) : ∀ i : Nat, i ≤ l.foldl max i := by
  induction l with
  | nil => intro i; simp
  | cons a t ih =>
    intro i
    rw [List.foldl_cons]
    exact Nat.le_trans (Nat.le_max_left i a) (ih (max i a))

lemma mem_le_foldl_max (l : List Nat) : ∀ i a : Nat, a ∈ l → a ≤ l.foldl max i := by
  induction l with
  | nil => intro i a h; cases h
  | cons b t ih =>
    intro i a h
    rw [List.foldl_cons]
    rcases List.mem_cons.mp h with h1 | h2
    · subst h1; exact Nat.le_trans (Nat.le_max_right i a) (le_foldl_max_init t (max i a))
    · exact ih (max i b) a h2

lemma attempt_le_maxAttempt (db : Db) (aid stid : Nat) (s : SubRow)
    (hs : s ∈ db.submissions) (ha : s.assignmentId = aid) (hb : s.studentId = stid) :
    s.attemptNumber ≤ maxAttempt db aid stid := by
  have hmem : s ∈ subsFor db aid stid := by
    simp [subsFor, List.mem_filter, hs, ha, hb]
  exact mem_le_foldl_max _ 0 _ (List.mem_map_of_mem (fun s => s.attemptNumber) hmem)

/-- The attempt number `maxAttempt + 1` is never already present for the
pair, so the sequencer's insert cannot hit the uniqueness constraint in a
sequential execution. -/
lemma no_dup_at_succ_max (db : Db) (aid stid : Nat) :
    (db.submissions.any (fun s =>
      s.assignmentId == aid && s.studentId == stid &&
      s.attemptNumber == maxAttempt db aid stid + 1)) = false := by
  by_contra h
  rw [Bool.not_eq_false, List.any_eq_true] at h
  obtain ⟨s, hs, hp⟩ := h
  simp only [Bool.and_eq_true, beq_iff_eq] at hp
  obtain ⟨⟨h1, h2⟩, h3⟩ := hp
  have := attempt_le_maxAttempt db aid stid s hs h1 h2
  omega

/-- Success of the sequencer's insert when the student exists with role
student and is enrolled in a class owning the assignment. -/
lemma insertSubmissionRow_ok (db : Db) (aid stid : Nat)
    (g : Option Int) (f : Option String) (u : UserRow) (asg : AsgRow)
    (hu : findUser db stid = some u) (hrole : u.role = "student")
    (ha : asg ∈ db.assignments) (haid : asg.aid = aid)
    (he : (⟨stid, asg.classId⟩ : EnrRow) ∈ db.enrollments) :
    insertSubmissionRow db aid stid (maxAttempt db aid stid + 1) g f =
      .ok ({ db with submissions := db.submissions ++
               [⟨nextSubId db, aid, stid, maxAttempt db aid stid + 1, g, f⟩] },
           ⟨nextSubId db, aid, stid, maxAttempt db aid stid + 1, g, f⟩) := by
  have h1 : trgSubRoleFires db stid = false := by
    simp [trgSubRoleFires, hu, hrole]
  have hX : (db.assignments.any (fun a =>
      a.aid == aid &&
      db.enrollments.any (fun e => e.classId == a.classId && e.userId == stid))) = true := by
    rw [List.any_eq_true]
    refine ⟨asg, ha, ?_⟩
    simp only [Bool.and_eq_true, beq_iff_eq]
    refine ⟨haid, ?_⟩
    rw [List.any_eq_true]
    exact ⟨⟨stid, asg.classId⟩, he, by simp⟩
  have h2 : trgSubEnrolledFires db aid stid = false := by
    simp [trgSubEnrolledFires, hX]
  have h3 := no_dup_at_succ_max db aid stid
  have h4 : (db.assignments.any (fun a => a.aid == aid)) = true := by
    rw [List.any_eq_true]; exact ⟨asg, ha, by simp [haid]⟩
  have h5 : (findUser db stid).isNone = false := by rw [hu]; rfl
  simp [insertSubmissionRow, h1, h2, h3, h4, h5]

/-- Any successful run of the insert returns the row with exactly the
attempt number it was given, appended to the submissions table. -/
lemma insertSubmissionRow_shape (db : Db) (aid stid attempt : Nat)
    (g : Option Int) (f : Option String) (db2 : Db) (row : SubRow)
    (h : insertSubmissionRow db aid stid attempt g f = .ok (db2, row)) :
    row.attemptNumber = attempt ∧
    db2 = { db with submissions := db.submissions ++ [row] } := by
  unfold insertSubmissionRow at h
  split at h
  · cases h
  split at h
  · cases h
  split at h
  · cases h
  split at h
  · cases h
  split at h
  · cases h
  · simp only [Except.ok.injEq, Prod.mk.injEq] at h
    obtain ⟨hdb, hrow⟩ := h
    subst hrow
    exact ⟨rfl, by rw [← hdb]⟩

/-- Inserting attempt `maxAttempt + 1` raises the stored maximum to
exactly that value. -/
lemma maxAttempt_after_insert (db : Db) (aid stid : Nat)
    (g : Option Int) (f : Option String) :
    maxAttempt { db with submissions := db.submissions ++
        [⟨nextSubId db, aid, stid, maxAttempt db aid stid + 1, g, f⟩] } aid stid =
      maxAttempt db aid stid + 1 := by
  have h : maxAttempt { db with submissions := db.submissions ++
      [⟨nextSubId db, aid, stid, maxAttempt db aid stid + 1, g, f⟩] } aid stid =
      max (maxAttempt db aid stid) (maxAttempt db aid stid + 1) := by
    unfold maxAttempt subsFor
    simp [List.filter_append, List.map_append, List.foldl_append]
  rw [h]
  exact Nat.max_eq_right (Nat.le_succ _)

/-- Sequential runs of the `main.py` submission endpoint: starting from a
stored maximum `k`, `N` repeated calls all succeed and assign the attempt
numbers `k+1, k+2, ..., k+N`. -/
lemma repeatCreate_spec (aid stid : Nat) (u : UserRow) (hrole : u.role = "student") :
    ∀ (N : Nat) (db : Db), findUser db stid = some u →
    (∃ asg, asg ∈ db.assignments ∧ asg.aid = aid ∧
        (⟨stid, asg.classId⟩ : EnrRow) ∈ db.enrollments) →
    ∃ db', repeatCreate aid stid N db =
      some (db', seqFrom (maxAttempt db aid stid + 1) N) := by
  intro N
  induction N with
  | zero => intro db _ _; exact ⟨db, rfl⟩
  | succ n ih =>
    intro db hu hex
    obtain ⟨asg, ha, haid, he⟩ := hex
    have hins := insertSubmissionRow_ok db aid stid none none u asg hu hrole ha haid he
    have hmain : mainCreateSubmission db aid stid none none =
        ({ db with submissions := db.submissions ++
             [⟨nextSubId db, aid, stid, maxAttempt db aid stid + 1, none, none⟩] },
         Except.ok ⟨nextSubId db, aid, stid, maxAttempt db aid stid + 1, none, none⟩) := by
      unfold mainCreateSubmission mainCreateSubmissionInsert
      rw [hins]
    have hu2 : findUser { db with submissions := db.submissions ++
        [⟨nextSubId db, aid, stid, maxAttempt db aid stid + 1, none, none⟩] } stid = some u := hu
    have hex2 : ∃ asg2, asg2 ∈ ({ db with submissions := db.submissions ++
        [⟨nextSubId db, aid, stid, maxAttempt db aid stid + 1, none, none⟩] } : Db).assignments ∧
        asg2.aid = aid ∧ (⟨stid, asg2.classId⟩ : EnrRow) ∈ ({ db with submissions := db.submissions ++
        [⟨nextSubId db, aid, stid, maxAttempt db aid stid + 1, none, none⟩] } : Db).enrollments :=
      ⟨asg, ha, haid, he⟩
    obtain ⟨db3, h3⟩ := ih _ hu2 hex2
    rw [maxAttempt_after_insert db aid stid none none] at h3
    refine ⟨db3, ?_⟩
    simp only [repeatCreate, hmain, h3, seqFrom]

/-- Claim C1: for every (assignment_id, student_id) pair, a successful
`create_submission` in `main.py` reads the current maximum attempt_number
for the pair (0 if no submission exists) and inserts the new Submission
with attempt number maximum plus one; hence N repeated successful
sequential calls for a pair with no prior submissions assign attempt
numbers exactly 1, 2, ..., N with no gaps or repeats. -/
theorem claim_C1 (db : Db) (aid stid N : Nat) (u : UserRow) (asg : AsgRow)
    (hu : findUser db stid = some u) (hrole : u.role = "student")
    (ha : asg ∈ db.assignments) (haid : asg.aid = aid)
    (he : (⟨stid, asg.classId⟩ : EnrRow) ∈ db.enrollments)
    (hnone : subsFor db aid stid = []) :
    (∀ (db2 db' : Db) (g : Option Int) (f : Option String) (row : SubRow),
        mainCreateSubmission db2 aid stid g f = (db', Except.ok row) →
        row.attemptNumber = maxAttempt db2 aid stid + 1) ∧
    ∃ db', repeatCreate aid stid N db = some (db', seqFrom 1 N) := by
  constructor
  · intro db2 db' g f row h
    unfold mainCreateSubmission mainCreateSubmissionInsert at h
    rcases hm : insertSubmissionRow db2 aid stid (maxAttempt db2 aid stid + 1) g f with e | p
    · rw [hm] at h; simp at h
    · rw [hm] at h
      obtain ⟨dbi, r⟩ := p
      simp at h
      obtain ⟨hdb, hrow⟩ := h
      rw [← hrow]
      exact (insertSubmissionRow_shape db2 aid stid _ g f dbi r hm).1
  · have hmax0 : maxAttempt db aid stid = 0 := by simp [maxAttempt, hnone]
    have hrep := repeatCreate_spec aid stid u hrole N db hu ⟨asg, ha, haid, he⟩
    rw [hmax0] at hrep
    exact hrep

/-- Claim C1 witness: in `dbSeq` (student 3 enrolled in class 1 owning
assignment 1, no submissions) all hypotheses hold and three sequential
calls assign attempts [1, 2, 3]. -/
theorem claim_C1_witness :
    (findUser dbSeq 3 = some stu3 ∧ stu3.role = "student" ∧
     asg1 ∈ dbSeq.assignments ∧ asg1.aid = 1 ∧
     (⟨3, asg1.classId⟩ : EnrRow) ∈ dbSeq.enrollments ∧ subsFor dbSeq 1 3 = []) ∧
    ∃ db', repeatCreate 1 3 3 dbSeq = some (db', seqFrom 1 3) :=
  ⟨by decide, (claim_C1 dbSeq 1 3 3 stu3 asg1 (by decide) (by decide) (by decide)
      (by decide) (by decide) (by decide)).2⟩

/-- Claim C2 (behavior at the failing input): two interleaved sequencer
runs for the same pair both read maximum 0 from `dbRace` and compute
attempt 1; the first insert succeeds, and the second, stale insert is
surfaced immediately as an HTTP 409 conflict on the uniqueness
constraint.  `create_submission` in `main.py` performs no retry of the
read-compute-insert cycle and defines no Contention error. -/
theorem claim_C2_behavior :
    maxAttempt dbRace 1 3 + 1 = 1 ∧
    (mainCreateSubmissionInsert dbRace 1 3 1 none none).2 =
      Except.ok ⟨1, 1, 3, 1, none, none⟩ ∧
    mainCreateSubmissionInsert
        (mainCreateSubmissionInsert dbRace 1 3 1 none none).1 1 3 1 none none =
      ((mainCreateSubmissionInsert dbRace 1 3 1 none none).1,
       Except.error (ApiErr.conflict DbErr.uniqueViolation)) := by decide

/-- Claim C3 counterexample: in `dbRole`, user 1 is a teacher assigned to
class 1; the `update_user` endpoint accepts a role change to student and
leaves the TeacherClass row (1, 1) in place, now referencing a user whose
role is not teacher.  The claimed invariant preservation by every
mutation is therefore false. -/
theorem claim_C3_counterexample :
    ((⟨1, 1⟩ : TCRow) ∈ dbRole.teacherClass) ∧
    (findUser dbRole 1).map (fun u => u.role) = some "teacher" ∧
    (mainUpdateUser dbRole 1 none none (some "student")).2 =
      Except.ok ⟨1, "t", "T", "student"⟩ ∧
    ((⟨1, 1⟩ : TCRow) ∈ (mainUpdateUser dbRole 1 none none (some "student")).1.teacherClass) ∧
    (findUser (mainUpdateUser dbRole 1 none none (some "student")).1 1).map
      (fun u => u.role) = some "student" := by decide

/-- Claim C3 amended: the teacher-role rule is enforced only at
TeacherClass insertion time — inserting a row whose teacher_id references
an existing user whose role is not teacher is rejected by the
trg_teacherclass_teacher_role trigger and leaves the store unchanged;
`update_user` can still change a referenced user's role afterwards. -/
theorem claim_C3_amended (db : Db) (tid cid : Nat) (u : UserRow)
    (hu : findUser db tid = some u) (hrole : u.role ≠ "teacher") :
    mainTeacherAssign db tid cid =
      (db, Except.error (ApiErr.conflict (DbErr.triggerAbort tcRoleMsg))) := by
  have h1 : trgTeacherRoleFires db tid = true := by
    simp [trgTeacherRoleFires, hu]
    exact hrole
  simp [mainTeacherAssign, insertTeacherClassRow, h1]

/-- Claim C3 amended witness: assigning student 2 as teacher of class 1 in
`dbRoleW` is rejected with the trigger abort and changes nothing. -/
theorem claim_C3_amended_witness :
    (findUser dbRoleW 2 = some ⟨2, "u", "U", "student"⟩ ∧
     (⟨2, "u", "U", "student"⟩ : UserRow).role ≠ "teacher") ∧
    mainTeacherAssign dbRoleW 2 1 =
      (dbRoleW, Except.error (ApiErr.conflict (DbErr.triggerAbort tcRoleMsg))) :=
  ⟨by decide, claim_C3_amended dbRoleW 2 1 ⟨2, "u", "U", "student"⟩ (by decide) (by decide)⟩

/-- Claim C4: for a student (existing user with role student), submission
creation succeeds when the student is enrolled in a class owning the
assignment, and fails with the enrollment-prerequisite trigger abort —
inserting no row — when the student is not enrolled in the class owning
the assignment. -/
theorem claim_C4 (db : Db) (aid stid : Nat) (u : UserRow) (asg : AsgRow)
    (hu : findUser db stid = some u) (hrole : u.role = "student")
    (ha : asg ∈ db.assignments) (haid : asg.aid = aid)
    (huniq : ∀ a ∈ db.assignments, a.aid = aid → a.classId = asg.classId) :
    ((⟨stid, asg.classId⟩ : EnrRow) ∈ db.enrollments →
      ∃ db' row, mainCreateSubmission db aid stid none none = (db', Except.ok row)) ∧
    ((¬ ∃ e ∈ db.enrollments, e.userId = stid ∧ e.classId = asg.classId) →
      mainCreateSubmission db aid stid none none =
        (db, Except.error (ApiErr.conflict (DbErr.triggerAbort subEnrollMsg)))) := by
  constructor
  · intro he
    have hins := insertSubmissionRow_ok db aid stid none none u asg hu hrole ha haid he
    have hmain : mainCreateSubmission db aid stid none none =
        ({ db with submissions := db.submissions ++
             [⟨nextSubId db, aid, stid, maxAttempt db aid stid + 1, none, none⟩] },
         Except.ok ⟨nextSubId db, aid, stid, maxAttempt db aid stid + 1, none, none⟩) := by
      unfold mainCreateSubmission mainCreateSubmissionInsert
      rw [hins]
    exact ⟨_, _, hmain⟩
  · intro hne
    have h1 : trgSubRoleFires db stid = false := by
      simp [trgSubRoleFires, hu, hrole]
    have hX : (db.assignments.any (fun a =>
        a.aid == aid &&
        db.enrollments.any (fun e => e.classId == a.classId && e.userId == stid))) = false := by
      by_contra hc
      rw [Bool.not_eq_false, List.any_eq_true] at hc
      obtain ⟨a, hamem, hp⟩ := hc
      simp only [Bool.and_eq_true, beq_iff_eq] at hp
      obtain ⟨haeq, hp2⟩ := hp
      rw [List.any_eq_true] at hp2
      obtain ⟨x, hxmem, hxp⟩ := hp2
      simp only [Bool.and_eq_true, beq_iff_eq] at hxp
      obtain ⟨hx1, hx2⟩ := hxp
      refine hne ⟨x, hxmem, hx2, ?_⟩
      rw [hx1]
      exact huniq a hamem haeq
    have h2 : trgSubEnrolledFires db aid stid = true := by
      simp [trgSubEnrolledFires, hX]
    simp [mainCreateSubmission, mainCreateSubmissionInsert, insertSubmissionRow, h1, h2]

/-- Claim C4 witness: in `dbSeq` the enrolled student's submission
succeeds; in `dbNoEnroll` (same student, not enrolled) it fails with the
enrollment trigger abort and the state is unchanged. -/
theorem claim_C4_witness :
    (findUser dbSeq 3 = some stu3 ∧ stu3.role = "student" ∧
     asg1 ∈ dbSeq.assignments ∧ asg1.aid = 1 ∧
     (⟨3, asg1.classId⟩ : EnrRow) ∈ dbSeq.enrollments) ∧
    (∃ db' row, mainCreateSubmission dbSeq 1 3 none none = (db', Except.ok row)) ∧
    ((¬ ∃ e ∈ dbNoEnroll.enrollments, e.userId = 3 ∧ e.classId = asg1.classId) ∧
     mainCreateSubmission dbNoEnroll 1 3 none none =
       (dbNoEnroll, Except.error (ApiErr.conflict (DbErr.triggerAbort subEnrollMsg)))) :=
  ⟨by decide,
   (claim_C4 dbSeq 1 3 stu3 asg1 (by decide) (by decide) (by decide) (by decide)
      (by decide)).1 (by decide),
   by decide,
   (claim_C4 dbNoEnroll 1 3 stu3 asg1 (by decide) (by decide) (by decide) (by decide)
      (by decide)).2 (by decide)⟩

/-- Claim C5: deleting a user who authored at least one Announcement is
refused by the ON DELETE RESTRICT foreign key — surfaced by the endpoint
as an unhandled integrity failure — and leaves the store unchanged; once
no Announcement references the user, the delete succeeds and cascades to
the user's Enrollments and TeacherClass rows. -/
theorem claim_C5 (db : Db) (uid : Nat) (u : UserRow) (hu : findUser db uid = some u) :
    ((∃ an ∈ db.announcements, an.authorId = uid) →
      mainDeleteUser db uid = (db, Except.error (ApiErr.unhandled DbErr.fkViolation))) ∧
    ((¬ ∃ an ∈ db.announcements, an.authorId = uid) →
      ∃ db', mainDeleteUser db uid = (db', Except.ok ()) ∧
        db'.users = db.users.filter (fun v => !(v.uid == uid)) ∧
        db'.enrollments = db.enrollments.filter (fun e => !(e.userId == uid)) ∧
        db'.teacherClass = db.teacherClass.filter (fun r => !(r.teacherId == uid))) := by
  have hu2 : db.users.find? (fun v => v.uid == uid) = some u := hu
  have hp : (u.uid == uid) = true := by
    have h := List.find?_some hu2
    simpa using h
  have hmem : u ∈ db.users.filter (fun v => v.uid == uid) :=
    List.mem_filter.mpr ⟨List.mem_of_find?_eq_some hu2, hp⟩
  have hlen : (db.users.filter (fun v => v.uid == uid)).length ≠ 0 := by
    intro h0
    rw [List.length_eq_zero] at h0
    rw [h0] at hmem
    cases hmem
  have hbeq : ((db.users.filter (fun v => v.uid == uid)).length == 0) = false := by
    simp [hlen]
  constructor
  · intro hex
    have hany : (db.announcements.any (fun an => an.authorId == uid)) = true := by
      rw [List.any_eq_true]
      obtain ⟨an, hm, he⟩ := hex
      exact ⟨an, hm, by simp [he]⟩
    simp [mainDeleteUser, deleteUserRows, hbeq, hany]
  · intro hnex
    have hany : (db.announcements.any (fun an => an.authorId == uid)) = false := by
      rw [List.any_eq_false]
      intro an hm
      simp only [beq_iff_eq]
      intro he
      exact hnex ⟨an, hm, he⟩
    refine ⟨{ db with
        users := db.users.filter (fun v => !(v.uid == uid)),
        teacherClass := db.teacherClass.filter (fun r => !(r.teacherId == uid)),
        enrollments := db.enrollments.filter (fun e => !(e.userId == uid)),
        submissions := db.submissions.filter (fun s => !(s.studentId == uid)),
        attachments := db.attachments.filter (fun t =>
          !((db.submissions.filter (fun s => s.studentId == uid)).any
            (fun s => s.sid == t.submissionId))) }, ?_, rfl, rfl, rfl⟩
    simp [mainDeleteUser, deleteUserRows, hbeq, hany]

/-- Claim C5 witness: in `dbAnn` teacher 1 authored an announcement, so
the delete is refused and the state is unchanged; in `dbAnnGone` (the
announcement removed) the delete succeeds and cascades. -/
theorem claim_C5_witness :
    ((findUser dbAnn 1 = some ⟨1, "t", "T", "teacher"⟩ ∧
      (∃ an ∈ dbAnn.announcements, an.authorId = 1)) ∧
     mainDeleteUser dbAnn 1 = (dbAnn, Except.error (ApiErr.unhandled DbErr.fkViolation))) ∧
    ((¬ ∃ an ∈ dbAnnGone.announcements, an.authorId = 1) ∧
     ∃ db', mainDeleteUser dbAnnGone 1 = (db', Except.ok ()) ∧
       db'.users = dbAnnGone.users.filter (fun v => !(v.uid == 1)) ∧
       db'.enrollments = dbAnnGone.enrollments.filter (fun e => !(e.userId == 1)) ∧
       db'.teacherClass = dbAnnGone.teacherClass.filter (fun r => !(r.teacherId == 1))) :=
  ⟨⟨by decide, (claim_C5 dbAnn 1 ⟨1, "t", "T", "teacher"⟩ (by decide)).1 (by decide)⟩,
   ⟨by decide, (claim_C5 dbAnnGone 1 ⟨1, "t", "T", "teacher"⟩ (by decide)).2 (by decide)⟩⟩

/-- Claim C6: deleting an existing class removes, in the same call, all
its Assignments, all Submissions of those Assignments, all Attachments of
those Submissions, and all Enrollments and TeacherClass rows of the
class, while every row belonging to another class survives unchanged. -/
theorem claim_C6 (db : Db) (cid : Nat) (c : ClassRow)
    (hc : c ∈ db.classes) (hcid : c.cid = cid) :
    ∃ db', mainDeleteClass db cid = (db', Except.ok ()) ∧
      (∀ a : AsgRow, a ∈ db'.assignments ↔ (a ∈ db.assignments ∧ a.classId ≠ cid)) ∧
      (∀ s : SubRow, s ∈ db'.submissions ↔ (s ∈ db.submissions ∧
        ¬ ∃ a ∈ db.assignments, a.classId = cid ∧ a.aid = s.assignmentId)) ∧
      (∀ t : AttRow, t ∈ db'.attachments ↔ (t ∈ db.attachments ∧
        ¬ ∃ s ∈ db.submissions,
          (∃ a ∈ db.assignments, a.classId = cid ∧ a.aid = s.assignmentId) ∧
          s.sid = t.submissionId)) ∧
      (∀ e : EnrRow, e ∈ db'.enrollments ↔ (e ∈ db.enrollments ∧ e.classId ≠ cid)) ∧
      (∀ r : TCRow, r ∈ db'.teacherClass ↔ (r ∈ db.teacherClass ∧ r.classId ≠ cid)) := by
  have hmem : c ∈ db.classes.filter (fun x => x.cid == cid) :=
    List.mem_filter.mpr ⟨hc, by simp [hcid]⟩
  have hlen : ((db.classes.filter (fun x => x.cid == cid)).length == 0) = false := by
    rw [beq_eq_false_iff_ne]
    intro h0
    rw [List.length_eq_zero] at h0
    rw [h0] at hmem
    cases hmem
  have hdel : deleteClassRows db cid =
      ({ db with
        classes := db.classes.filter (fun x => !(x.cid == cid)),
        teacherClass := db.teacherClass.filter (fun r => !(r.classId == cid)),
        enrollments := db.enrollments.filter (fun e => !(e.classId == cid)),
        assignments := db.assignments.filter (fun a => !(a.classId == cid)),
        submissions := db.submissions.filter (fun s =>
          !((db.assignments.filter (fun a => a.classId == cid)).any
            (fun a => a.aid == s.assignmentId))),
        attachments := db.attachments.filter (fun t =>
          !((db.submissions.filter (fun s =>
              (db.assignments.filter (fun a => a.classId == cid)).any
                (fun a => a.aid == s.assignmentId))).any
            (fun s => s.sid == t.submissionId))),
        announcements := db.announcements.filter (fun an => !(an.classId == cid)) },
       (db.classes.filter (fun x => x.cid == cid)).length) := by
    simp [deleteClassRows, hlen]
  refine ⟨(deleteClassRows db cid).1, ?_, ?_, ?_, ?_, ?_, ?_⟩
  · have h2 : ((deleteClassRows db cid).2 == 0) = false := by rw [hdel]; exact hlen
    simp [mainDeleteClass, h2]
  · intro a
    rw [hdel]
    simp [List.mem_filter, beq_eq_false_iff_ne]
  · intro s
    rw [hdel]
    simp [List.mem_filter, List.any_eq_true, beq_iff_eq, not_exists]
  · intro t
    rw [hdel]
    simp [List.mem_filter, List.any_eq_true, beq_iff_eq, not_exists]
  · intro e
    rw [hdel]
    simp [List.mem_filter, beq_eq_false_iff_ne]
  · intro r
    rw [hdel]
    simp [List.mem_filter, beq_eq_false_iff_ne]

/-- Claim C6 witness: deleting class 1 from `dbCascade` (which also holds
an unrelated class 2 with its own assignment) removes exactly the rows of
class 1 and its dependents. -/
theorem claim_C6_witness :
    (cls1 ∈ dbCascade.classes ∧ cls1.cid = 1) ∧
    (∃ db', mainDeleteClass dbCascade 1 = (db', Except.ok ()) ∧
      (∀ a : AsgRow, a ∈ db'.assignments ↔ (a ∈ dbCascade.assignments ∧ a.classId ≠ 1)) ∧
      (∀ s : SubRow, s ∈ db'.submissions ↔ (s ∈ dbCascade.submissions ∧
        ¬ ∃ a ∈ dbCascade.assignments, a.classId = 1 ∧ a.aid = s.assignmentId)) ∧
      (∀ t : AttRow, t ∈ db'.attachments ↔ (t ∈ dbCascade.attachments ∧
        ¬ ∃ s ∈ dbCascade.submissions,
          (∃ a ∈ dbCascade.assignments, a.classId = 1 ∧ a.aid = s.assignmentId) ∧
          s.sid = t.submissionId)) ∧
      (∀ e : EnrRow, e ∈ db'.enrollments ↔ (e ∈ dbCascade.enrollments ∧ e.classId ≠ 1)) ∧
      (∀ r : TCRow, r ∈ db'.teacherClass ↔ (r ∈ dbCascade.teacherClass ∧ r.classId ≠ 1))) :=
  ⟨by decide, claim_C6 dbCascade 1 cls1 (by decide) (by decide)⟩

/-- Claim C7 counterexample: `managementCrud.delete_class` on `dbCount`
(class 1 owning one assignment) removes two rows in total — the class and
the cascaded assignment — but returns 1, the count of directly deleted
rows only, so the returned count does not include cascaded dependents. -/
theorem claim_C7_counterexample :
    (crudDeleteClass dbCount 1).2 = Except.ok 1 ∧
    totalRows dbCount - totalRows (crudDeleteClass dbCount 1).1 = 2 ∧
    (1 : Nat) ≠ 2 := by decide

/-- Claim C7 amended: each delete in `managementCrud` returns the number
of rows deleted directly by the DELETE statement — cascaded dependent
rows are not counted — and returns 0, rather than failing, when the id
does not exist; the `main.py` endpoints are the layer that fails with
NotFound on a missing id (and they return no count at all). -/
theorem claim_C7_amended (db : Db) (cid uid aid sid : Nat) :
    (crudDeleteClass db cid).2 =
      Except.ok ((db.classes.filter (fun c => c.cid == cid)).length) ∧
    ((¬ ∃ an ∈ db.announcements, an.authorId = uid) →
      (crudDeleteUser db uid).2 =
        Except.ok ((db.users.filter (fun v => v.uid == uid)).length)) ∧
    (crudDeleteAssignment db aid).2 =
      Except.ok ((db.assignments.filter (fun a => a.aid == aid)).length) ∧
    (crudDeleteSubmission db sid).2 =
      Except.ok ((db.submissions.filter (fun s => s.sid == sid)).length) ∧
    ((db.classes.filter (fun c => c.cid == cid)).length = 0 →
      mainDeleteClass db cid = (db, Except.error (ApiErr.notFound "Class not found"))) ∧
    ((db.users.filter (fun v => v.uid == uid)).length = 0 →
      mainDeleteUser db uid = (db, Except.error (ApiErr.notFound "User not found"))) ∧
    ((db.assignments.filter (fun a => a.aid == aid)).length = 0 →
      mainDeleteAssignment db aid =
        (db, Except.error (ApiErr.notFound "Assignment not found"))) ∧
    ((db.submissions.filter (fun s => s.sid == sid)).length = 0 →
      mainDeleteSubmission db sid =
        (db, Except.error (ApiErr.notFound "Submission not found"))) := by
  refine ⟨?_, ?_, ?_, ?_, ?_, ?_, ?_, ?_⟩
  · cases hq : ((db.classes.filter (fun c => c.cid == cid)).length == 0) with
    | true =>
      have h0 : (db.classes.filter (fun c => c.cid == cid)).length = 0 := by
        simpa using hq
      simp [crudDeleteClass, deleteClassRows, hq, h0]
    | false => simp [crudDeleteClass, deleteClassRows, hq]
  · intro hno
    have hany : (db.announcements.any (fun an => an.authorId == uid)) = false := by
      rw [List.any_eq_false]
      intro an hm
      simp only [beq_iff_eq]
      intro h
      exact hno ⟨an, hm, h⟩
    cases hq : ((db.users.filter (fun v => v.uid == uid)).length == 0) with
    | true =>
      have h0 : (db.users.filter (fun v => v.uid == uid)).length = 0 := by
        simpa using hq
      simp [crudDeleteUser, deleteUserRows, hq, h0]
    | false => simp [crudDeleteUser, deleteUserRows, hq, hany]
  · cases hq : ((db.assignments.filter (fun a => a.aid == aid)).length == 0) with
    | true =>
      have h0 : (db.assignments.filter (fun a => a.aid == aid)).length = 0 := by
        simpa using hq
      simp [crudDeleteAssignment, deleteAssignmentRows, hq, h0]
    | false => simp [crudDeleteAssignment, deleteAssignmentRows, hq]
  · cases hq : ((db.submissions.filter (fun s => s.sid == sid)).length == 0) with
    | true =>
      have h0 : (db.submissions.filter (fun s => s.sid == sid)).length = 0 := by
        simpa using hq
      simp [crudDeleteSubmission, deleteSubmissionRows, hq, h0]
    | false => simp [crudDeleteSubmission, deleteSubmissionRows, hq]
  · intro h0
    simp [mainDeleteClass, deleteClassRows, h0]
  · intro h0
    simp [mainDeleteUser, deleteUserRows, h0]
  · intro h0
    simp [mainDeleteAssignment, deleteAssignmentRows, h0]
  · intro h0
    simp [mainDeleteSubmission, deleteSubmissionRows, h0]

/-- Claim C7 amended witness: on the empty database every id is missing,
each crud delete returns 0, and the `main.py` endpoints fail NotFound. -/
theorem claim_C7_amended_witness :
    ((¬ ∃ an ∈ dbEmpty.announcements, an.authorId = 1) ∧
     (dbEmpty.classes.filter (fun c => c.cid == 1)).length = 0 ∧
     (dbEmpty.users.filter (fun v => v.uid == 1)).length = 0) ∧
    (crudDeleteClass dbEmpty 1).2 = Except.ok 0 ∧
    (crudDeleteUser dbEmpty 1).2 = Except.ok 0 ∧
    mainDeleteClass dbEmpty 1 = (dbEmpty, Except.error (ApiErr.notFound "Class not found")) ∧
    mainDeleteUser dbEmpty 1 = (dbEmpty, Except.error (ApiErr.notFound "User not found")) :=
  ⟨by decide,
   (claim_C7_amended dbEmpty 1 1 1 1).1,
   (claim_C7_amended dbEmpty 1 1 1 1).2.1 (by decide),
   (claim_C7_amended dbEmpty 1 1 1 1).2.2.2.2.1 (by decide),
   (claim_C7_amended dbEmpty 1 1 1 1).2.2.2.2.2.1 (by decide)⟩

/-- Claim C8: no embedded mutating operation partially commits — whenever
an operation returns a typed failure, the durable state it returns is
exactly the state it was given.  (The connection context managers in
`main.py` and `managementCrud.py` commit only on a clean exit, and a
failing SQL statement changes nothing.) -/
theorem claim_C8 :
    (∀ (db : Db) (aid stid : Nat) (g : Option Int) (f : Option String) (e : ApiErr),
      (mainCreateSubmission db aid stid g f).2 = Except.error e →
      (mainCreateSubmission db aid stid g f).1 = db) ∧
    (∀ (db : Db) (uid : Nat) (em fn rl : Option String) (e : ApiErr),
      (mainUpdateUser db uid em fn rl).2 = Except.error e →
      (mainUpdateUser db uid em fn rl).1 = db) ∧
    (∀ (db : Db) (uid : Nat) (e : ApiErr),
      (mainDeleteUser db uid).2 = Except.error e → (mainDeleteUser db uid).1 = db) ∧
    (∀ (db : Db) (cid : Nat) (e : ApiErr),
      (mainDeleteClass db cid).2 = Except.error e → (mainDeleteClass db cid).1 = db) ∧
    (∀ (db : Db) (uid cid : Nat) (e : ApiErr),
      (mainEnroll db uid cid).2 = Except.error e → (mainEnroll db uid cid).1 = db) ∧
    (∀ (db : Db) (tid cid : Nat) (e : ApiErr),
      (mainTeacherAssign db tid cid).2 = Except.error e →
      (mainTeacherAssign db tid cid).1 = db) ∧
    (∀ (db : Db) (aid stid att : Nat) (g : Option Int) (f : Option String) (e : DbErr),
      (crudCreateSubmission db aid stid att g f).2 = Except.error e →
      (crudCreateSubmission db aid stid att g f).1 = db) ∧
    (∀ (db : Db) (uid cid : Nat) (e : DbErr),
      (crudEnrollStudent db uid cid).2 = Except.error e →
      (crudEnrollStudent db uid cid).1 = db) ∧
    (∀ (db : Db) (uid : Nat) (e : DbErr),
      (crudDeleteUser db uid).2 = Except.error e → (crudDeleteUser db uid).1 = db) := by
  refine ⟨?_, ?_, ?_, ?_, ?_, ?_, ?_, ?_, ?_⟩
  · intro db aid stid g f e h
    unfold mainCreateSubmission mainCreateSubmissionInsert at h ⊢
    rcases hm : insertSubmissionRow db aid stid (maxAttempt db aid stid + 1) g f with e2 | p
    · rfl
    · rw [hm] at h
      obtain ⟨db2, row⟩ := p
      simp at h
  · intro db uid em fn rl e h
    by_cases hOpt : (em.isNone && fn.isNone && rl.isNone) = true
    · simp [mainUpdateUser, hOpt]
    · rw [Bool.not_eq_true] at hOpt
      rcases hm : updateUsersRow db uid em fn rl with e2 | db2
      · simp [mainUpdateUser, hOpt, hm]
      · rcases hf : findUser db2 uid with _ | u2
        · simp [mainUpdateUser, hOpt, hm, hf]
        · exfalso
          simp [mainUpdateUser, hOpt, hm, hf] at h
  · intro db uid e h
    rcases hm : deleteUserRows db uid with e2 | p
    · simp [mainDeleteUser, hm]
    · obtain ⟨db2, n⟩ := p
      cases hn : (n == 0) with
      | true => simp [mainDeleteUser, hm, hn]
      | false => exfalso; simp [mainDeleteUser, hm, hn] at h
  · intro db cid e h
    cases hn : ((deleteClassRows db cid).2 == 0) with
    | true => simp [mainDeleteClass, hn]
    | false => exfalso; simp [mainDeleteClass, hn] at h
  · intro db uid cid e h
    rcases hm : insertEnrollmentRow db uid cid with e2 | db2
    · simp [mainEnroll, hm]
    · exfalso; simp [mainEnroll, hm] at h
  · intro db tid cid e h
    rcases hm : insertTeacherClassRow db tid cid with e2 | db2
    · simp [mainTeacherAssign, hm]
    · exfalso; simp [mainTeacherAssign, hm] at h
  · intro db aid stid att g f e h
    rcases hm : insertSubmissionRow db aid stid att g f with e2 | p
    · simp [crudCreateSubmission, hm]
    · obtain ⟨db2, row⟩ := p
      exfalso; simp [crudCreateSubmission, hm] at h
  · intro db uid cid e h
    rcases hm : insertEnrollmentRow db uid cid with e2 | db2
    · simp [crudEnrollStudent, hm]
    · exfalso; simp [crudEnrollStudent, hm] at h
  · intro db uid e h
    rcases hm : deleteUserRows db uid with e2 | p
    · simp [crudDeleteUser, hm]
    · obtain ⟨db2, n⟩ := p
      exfalso; simp [crudDeleteUser, hm] at h

/-- Claim C8 witness: enrolling a nonexistent user in a nonexistent class
on the empty database fails, and the state component returned is the
unchanged empty database. -/
theorem claim_C8_witness :
    (mainEnroll dbEmpty 1 1).2 = Except.error (ApiErr.conflict DbErr.fkViolation) ∧
    (mainEnroll dbEmpty 1 1).1 = dbEmpty :=
  ⟨by decide,
   claim_C8.2.2.2.2.1 dbEmpty 1 1 (ApiErr.conflict DbErr.fkViolation) (by decide)⟩

/-- Claim C9 counterexample: in `dbStale` a Submission with attempt 1
already exists for (assignment 1, student 3), but the student's
enrollment has since been removed, so `managementCrud.create_submission`
with the default attempt 1 fails with the enrollment trigger abort — not
with a uniqueness-constraint violation — refuting the claim as stated
over every such state (the claim is true only while the role and
enrollment prerequisites still hold). -/
theorem claim_C9_counterexample :
    (∃ s ∈ dbStale.submissions,
       s.assignmentId = 1 ∧ s.studentId = 3 ∧ s.attemptNumber = 1) ∧
    crudCreateSubmission dbStale 1 3 1 none none =
      (dbStale, Except.error (DbErr.triggerAbort subEnrollMsg)) ∧
    DbErr.triggerAbort subEnrollMsg ≠ DbErr.uniqueViolation := by decide

/-- Claim C9 amended: in every state where a Submission with attempt 1
exists for the pair and the student still has role student and is still
enrolled in a class owning the assignment, `managementCrud.create_submission`
with its default attempt argument 1 fails with the uniqueness-constraint
violation and inserts no row — this code path uses the caller-supplied
attempt number and performs no attempt sequencing. -/
theorem claim_C9_amended (db : Db) (aid stid : Nat) (u : UserRow) (asg : AsgRow)
    (hu : findUser db stid = some u) (hrole : u.role = "student")
    (ha : asg ∈ db.assignments) (haid : asg.aid = aid)
    (he : (⟨stid, asg.classId⟩ : EnrRow) ∈ db.enrollments)
    (g : Option Int) (f : Option String)
    (hdup : ∃ s ∈ db.submissions,
       s.assignmentId = aid ∧ s.studentId = stid ∧ s.attemptNumber = 1) :
    crudCreateSubmission db aid stid 1 g f =
      (db, Except.error DbErr.uniqueViolation) := by
  have h1 : trgSubRoleFires db stid = false := by
    simp [trgSubRoleFires, hu, hrole]
  have hX : (db.assignments.any (fun a =>
      a.aid == aid &&
      db.enrollments.any (fun e => e.classId == a.classId && e.userId == stid))) = true := by
    rw [List.any_eq_true]
    refine ⟨asg, ha, ?_⟩
    simp only [Bool.and_eq_true, beq_iff_eq]
    refine ⟨haid, ?_⟩
    rw [List.any_eq_true]
    exact ⟨⟨stid, asg.classId⟩, he, by simp⟩
  have h2 : trgSubEnrolledFires db aid stid = false := by
    simp [trgSubEnrolledFires, hX]
  have h3 : (db.submissions.any (fun s =>
      s.assignmentId == aid && s.studentId == stid && s.attemptNumber == 1)) = true := by
    rw [List.any_eq_true]
    obtain ⟨s, hm, hs1, hs2, hs3⟩ := hdup
    exact ⟨s, hm, by simp [hs1, hs2, hs3]⟩
  simp [crudCreateSubmission, insertSubmissionRow, h1, h2, h3]

/-- Claim C9 amended witness: in `dbDup` (attempt 1 present, prerequisites
intact) the crud insert with default attempt 1 hits the uniqueness
constraint and changes nothing. -/
theorem claim_C9_amended_witness :
    (findUser dbDup 3 = some stu3 ∧ stu3.role = "student" ∧
     asg1 ∈ dbDup.assignments ∧ asg1.aid = 1 ∧
     (⟨3, asg1.classId⟩ : EnrRow) ∈ dbDup.enrollments ∧
     ∃ s ∈ dbDup.submissions,
       s.assignmentId = 1 ∧ s.studentId = 3 ∧ s.attemptNumber = 1) ∧
    crudCreateSubmission dbDup 1 3 1 none none =
      (dbDup, Except.error DbErr.uniqueViolation) :=
  ⟨by decide, claim_C9_amended dbDup 1 3 stu3 asg1 (by decide) (by decide) (by decide)
      (by decide) (by decide) none none (by decide)⟩

/-- Claim C10: when an Enrollments insert references a user_id with no
Users row, the role trigger's WHEN subquery is NULL and the trigger does
not fire; the insert is rejected by foreign-key existence enforcement
instead, and the store is unchanged — the failure is an existence
violation, never a role violation. -/
theorem claim_C10 (db : Db) (uid cid : Nat)
    (hu : findUser db uid = none)
    (hnd : ¬ ∃ e ∈ db.enrollments, e.userId = uid ∧ e.classId = cid) :
    trgEnrollRoleFires db uid = false ∧
    insertEnrollmentRow db uid cid = Except.error DbErr.fkViolation ∧
    crudEnrollStudent db uid cid = (db, Except.error DbErr.fkViolation) ∧
    mainEnroll db uid cid = (db, Except.error (ApiErr.conflict DbErr.fkViolation)) := by
  have h1 : trgEnrollRoleFires db uid = false := by
    simp [trgEnrollRoleFires, hu]
  have h2 : (db.enrollments.any (fun e => e.userId == uid && e.classId == cid)) = false := by
    rw [List.any_eq_false]
    intro x hm
    simp only [Bool.and_eq_true, beq_iff_eq, not_and]
    intro hx1 hx2
    exact hnd ⟨x, hm, hx1, hx2⟩
  have h3 : (findUser db uid).isNone = true := by rw [hu]; rfl
  refine ⟨h1, ?_, ?_, ?_⟩ <;>
    simp [insertEnrollmentRow, crudEnrollStudent, mainEnroll, h1, h2, h3]

/-- Claim C10 witness: enrolling the nonexistent user 5 in class 1 of
`dbNoEnroll` fails with the foreign-key violation, not the role trigger,
and leaves the state unchanged. -/
theorem claim_C10_witness :
    (findUser dbNoEnroll 5 = none ∧
     ¬ ∃ e ∈ dbNoEnroll.enrollments, e.userId = 5 ∧ e.classId = 1) ∧
    (trgEnrollRoleFires dbNoEnroll 5 = false ∧
     insertEnrollmentRow dbNoEnroll 5 1 = Except.error DbErr.fkViolation ∧
     crudEnrollStudent dbNoEnroll 5 1 = (dbNoEnroll, Except.error DbErr.fkViolation) ∧
     mainEnroll dbNoEnroll 5 1 = (dbNoEnroll, Except.error (ApiErr.conflict DbErr.fkViolation))) :=
  ⟨by decide, claim_C10 dbNoEnroll 5 1 (by decide) (by decide)⟩
